import Mathlib

/-!
# ngx-http-auth-jwt-module: the request-time JWT gate

A shallow embedding of `src/ngx_http_auth_jwt_module.c`:

* `getJwt` (lines 361-409), the token locator;
* `ngx_http_auth_jwt_handler` (lines 127-237), the access-phase handler;
* `loadAuthKey` (lines 280-319) and `ngx_http_auth_jwt_merge_loc_conf`
  (lines 321-359), the configuration-time key file loading.

Byte strings (`ngx_str_t` values handed over by nginx: configuration tokens
and header values) are lists of characters, their `len` being the list length.
Everything the module calls outside this file (header and cookie lookup, hex
decoding, libjwt, the clock, the file system) is a field of `Host` or of
`FileSystem`, so every theorem holds for every behaviour of those
collaborators.  The handler yields `some` of the status it returns, or `none`
when the run ends in undefined behaviour (the log call of line 194), together
with the list of external calls it made, in order.
-/

set_option autoImplicit false

namespace NgxAuthJwt

/-! ## Constants of nginx and of the C source -/

/-- nginx: `NGX_OK` is 0. -/
def NGX_OK : Int := 0

/-- nginx: `NGX_ERROR` is -1. -/
def NGX_ERROR : Int := -1

/-- nginx: `NGX_DECLINED` is -5. -/
def NGX_DECLINED : Int := -5

/-- nginx: `NGX_CONF_UNSET` is -1, also the value `(ngx_flag_t) -1` of an unset flag. -/
def NGX_CONF_UNSET : Int := -1

/-- nginx: the method bit `NGX_HTTP_OPTIONS` is 0x0200 (0x0040 is
`NGX_HTTP_MKCOL`). -/
def NGX_HTTP_OPTIONS : Nat := 512

/-- nginx: the log level `NGX_LOG_ERR` is 4 (the default level of the error
log). -/
def NGX_LOG_ERR : Nat := 4

/-- The literal "AUTHORIZATION". -/
def lit_AUTHORIZATION : List Char :=
  ['A', 'U', 'T', 'H', 'O', 'R', 'I', 'Z', 'A', 'T', 'I', 'O', 'N']

/-- The literal "COOKIE=". -/
def lit_COOKIE_EQ : List Char := ['C', 'O', 'O', 'K', 'I', 'E', Char.ofNat 61]

/-- The literal "Bearer " (the last byte is a space). -/
def lit_Bearer : List Char := ['B', 'e', 'a', 'r', 'e', 'r', Char.ofNat 32]

/-- The literal "HS". -/
def lit_HS : List Char := ['H', 'S']

/-- The literal "RS". -/
def lit_RS : List Char := ['R', 'S']

/-- The literal "HS256", the default of `auth_jwt_algorithm`. -/
def lit_HS256 : List Char := ['H', 'S', '2', '5', '6']

/-- The label "RS256". -/
def lit_RS256 : List Char := ['R', 'S', '2', '5', '6']

/-- The header name `authorizationHeaderName`, "Authorization" (line 363). -/
def authorizationHeaderName : List Char :=
  ['A', 'u', 't', 'h', 'o', 'r', 'i', 'z', 'a', 't', 'i', 'o', 'n']

/-- C `sizeof` of a string literal: its bytes and the terminating NUL. -/
def sizeof_lit (s : List Char) : Nat := s.length + 1

/-- `ngx_strncmp(s1, s2, n)`: 0 when the first `n` bytes agree.  The source
calls it only with `s2` a literal of at least `n` non-NUL bytes and, by the
length test before it, `s1` of at least `n` bytes, where C's stop at NUL does
not come into play. -/
def ngx_strncmp (s1 s2 : List Char) (n : Nat) : Int :=
  if s1.take n = s2.take n then 0 else 1

/-- C conversion of an unsigned value (`size_t`, `unsigned long`) to a 32-bit
`int`: the low 32 bits, read in two's complement. -/
def toInt32 (n : Nat) : Int :=
  if n % 4294967296 < 2147483648 then ((n % 4294967296 : Nat) : Int)
  else ((n % 4294967296 : Nat) : Int) - 4294967296

/-- C conversion of an `int` to a 64-bit `size_t`. -/
def toSizeT (n : Int) : Nat := (n % 18446744073709551616).toNat

/-! ## Data model -/

/-- libjwt: `jwt_alg_t`. -/
inductive jwt_alg_t where
  | JWT_ALG_NONE
  | JWT_ALG_HS256
  | JWT_ALG_HS384
  | JWT_ALG_HS512
  | JWT_ALG_RS256
  | JWT_ALG_RS384
  | JWT_ALG_RS512
  | JWT_ALG_ES256
  | JWT_ALG_ES384
  | JWT_ALG_ES512
  | JWT_ALG_TERM
  deriving DecidableEq, Repr

/-- libjwt: a decoded token `jwt_t`, as far as the handler reads it:
`jwt_get_alg` and `jwt_get_grant_int`. -/
structure jwt_t where
  alg : jwt_alg_t
  grant_int : List Char → Int

/-- libjwt: `jwt_get_alg`. -/
def jwt_get_alg (jwt : jwt_t) : jwt_alg_t := jwt.alg

/-- libjwt: `jwt_get_grant_int`. -/
def jwt_get_grant_int (jwt : jwt_t) (name : List Char) : Int := jwt.grant_int name

/-- The grant name "exp". -/
def lit_exp : List Char := ['e', 'x', 'p']

/-- The private field `_auth_jwt_keyfile`: the one `ngx_str_t` the module
fills itself, `data` and `len` assigned separately by `loadAuthKey`. -/
structure keyfile_str_t where
  len : Nat
  data : List Char
  deriving DecidableEq, Repr

/-- The struct `ngx_http_auth_jwt_loc_conf_t` (lines 23-33) as the handler
reads it, after merging (every string has its `data`). -/
structure ngx_http_auth_jwt_loc_conf_t where
  auth_jwt_key : List Char
  auth_jwt_enabled : Int
  auth_jwt_validation_type : List Char
  auth_jwt_algorithm : List Char
  auth_jwt_keyfile_path : List Char
  auth_jwt_use_keyfile : Int
  auth_jwt_failure_status : Int
  _auth_jwt_keyfile : keyfile_str_t
  deriving DecidableEq, Repr

/-- The part of `ngx_http_request_t` the module reads: the method, the
request header list and the `Cookie` header lines. -/
structure ngx_http_request_t where
  method : Nat
  headers : List (List Char × List Char)
  cookies : List (List Char)
  deriving DecidableEq, Repr

/-- An external call made while serving a request, with its arguments.
`ngx_log_error msg` stands for the statement `ngx_log_error(NGX_LOG_ERR, ...)`
with the format `msg` being reached; nginx formats and writes the entry only
when the log level admits it. -/
inductive Call where
  | search_headers_in (name : List Char)
  | ngx_http_parse_multi_header_lines (name : List Char)
  | hex_to_binary (str : List Char)
  | jwt_decode (token : List Char) (key : List Char) (keylen : Int)
  | jwt_free
  | ngx_log_error (msg : String)
  deriving DecidableEq, Repr

/-- The collaborators of the request path.
* `search_headers_in r name`: the value of the header found, `none` for NULL
  (declared in `ngx_http_auth_jwt_header_processing.h`);
* `ngx_http_parse_multi_header_lines cookies name`: the value of the cookie
  found, `none` for `NGX_DECLINED` (nginx);
* `hex_to_binary str`: the decoded buffer when it returns 0, `none` when it
  returns non-zero (`ngx_http_auth_jwt_binary_converters.h`);
* `jwt_decode token key keylen`: the decoded token when it returns 0, the
  non-zero return code otherwise (libjwt);
* `time`: the value of `time(NULL)`;
* `log_level`: the level `r->connection->log->log_level`; nginx's macro
  `ngx_log_error(level, log, ...)` calls `ngx_log_error_core`, which reads the
  arguments of the format, only when `log_level >= level`. -/
structure Host where
  search_headers_in : ngx_http_request_t → List Char → Option (List Char)
  ngx_http_parse_multi_header_lines : List (List Char) → List Char → Option (List Char)
  hex_to_binary : List Char → Option (List Char)
  jwt_decode : List Char → List Char → Int → Except Int jwt_t
  time : Int
  log_level : Nat

/-- Modelled from the spec: `ngx_str_t_to_char_ptr` (declared in
`ngx_http_auth_jwt_string.h`, not under src/) copies the `len` bytes of an
`ngx_str_t` into a NUL-terminated buffer; the token is the extracted
substring itself. -/
def ngx_str_t_to_char_ptr (str : List Char) : List Char := str

/-! ## getJwt (lines 361-409) -/

/-- The function `getJwt`: the token (`none` for NULL) and the calls made. -/
def getJwt (h : Host) (r : ngx_http_request_t) (auth_jwt_validation_type : List Char) :
    Option (List Char) × List Call :=
  if auth_jwt_validation_type.length = 0 ∨
      (auth_jwt_validation_type.length = sizeof_lit lit_AUTHORIZATION - 1 ∧
        ngx_strncmp auth_jwt_validation_type lit_AUTHORIZATION
          (sizeof_lit lit_AUTHORIZATION - 1) = 0) then
    -- using authorization header
    match h.search_headers_in r authorizationHeaderName with
    | some value =>
      -- a header value is far shorter than 2^63 bytes: the size_t difference,
      -- read as ngx_int_t, is the mathematical difference
      let bearer_length : Int := (value.length : Int) - ((sizeof_lit lit_Bearer : Int) - 1)
      if bearer_length > 0 then
        let authorizationHeaderStr : List Char :=
          (value.drop (sizeof_lit lit_Bearer - 1)).take bearer_length.toNat
        (some (ngx_str_t_to_char_ptr authorizationHeaderStr),
          [Call.search_headers_in authorizationHeaderName])
      else
        (none, [Call.search_headers_in authorizationHeaderName])
    | none => (none, [Call.search_headers_in authorizationHeaderName])
  else if auth_jwt_validation_type.length > sizeof_lit lit_COOKIE_EQ ∧
      ngx_strncmp auth_jwt_validation_type lit_COOKIE_EQ (sizeof_lit lit_COOKIE_EQ - 1) = 0 then
    let name : List Char := auth_jwt_validation_type.drop (sizeof_lit lit_COOKIE_EQ - 1)
    -- get the cookie
    match h.ngx_http_parse_multi_header_lines r.cookies name with
    | some jwtCookieVal =>
      (some (ngx_str_t_to_char_ptr jwtCookieVal), [Call.ngx_http_parse_multi_header_lines name])
    | none => (none, [Call.ngx_http_parse_multi_header_lines name])
  else
    (none, [])

/-! ## ngx_http_auth_jwt_handler (lines 127-237) -/

/-- The label `unauthorized:` (lines 230-236): free the decoded token when
there is one, return the configured failure status. -/
def unauthorized (jwtcf : ngx_http_auth_jwt_loc_conf_t) (jwt : Option jwt_t)
    (trace : List Call) : Int × List Call :=
  match jwt with
  | some _ => (jwtcf.auth_jwt_failure_status, trace ++ [Call.jwt_free])
  | none => (jwtcf.auth_jwt_failure_status, trace)

/-- How lines 164-196 of the handler end: with the key buffer `keyBinary` and
the `int keylen` to hand to `jwt_decode`, with the jump to `unauthorized`, or
in undefined behaviour. -/
inductive key_result where
  | key (keyBinary : List Char) (keylen : Int)
  | unauthorized
  | undefined
  deriving DecidableEq, Repr

/-- Lines 164-196 of the handler: how the block ends, and the calls made.
Line 194 passes the `ngx_str_t` `auth_jwt_algorithm` itself, by value, for the
`%s` of its format, which takes a `u_char *`: when the log level admits
`NGX_LOG_ERR` the formatter reads `len` as the pointer, undefined behaviour;
below that level the arguments are not read and the jump follows. -/
def handler_key (h : Host) (jwtcf : ngx_http_auth_jwt_loc_conf_t) :
    key_result × List Call :=
  let auth_jwt_algorithm := jwtcf.auth_jwt_algorithm
  if auth_jwt_algorithm.length = 0 ∨
      (auth_jwt_algorithm.length = 5 ∧ ngx_strncmp auth_jwt_algorithm lit_HS 2 = 0) then
    let keylen : Int := toInt32 (jwtcf.auth_jwt_key.length / 2)
    match h.hex_to_binary jwtcf.auth_jwt_key with
    | some keyBinary =>
      (key_result.key keyBinary keylen, [Call.hex_to_binary jwtcf.auth_jwt_key])
    | none =>
      (key_result.unauthorized, [Call.hex_to_binary jwtcf.auth_jwt_key,
        Call.ngx_log_error "failed to turn hex key into binary"])
  else if auth_jwt_algorithm.length = 5 ∧ ngx_strncmp auth_jwt_algorithm lit_RS 2 = 0 then
    -- in this case, 'Binary' is a misnomer, as it is the public key string itself
    if jwtcf.auth_jwt_use_keyfile = 1 then
      (key_result.key jwtcf._auth_jwt_keyfile.data (toInt32 jwtcf._auth_jwt_keyfile.len), [])
    else
      (key_result.key jwtcf.auth_jwt_key (toInt32 jwtcf.auth_jwt_key.length), [])
  else if h.log_level ≥ NGX_LOG_ERR then
    (key_result.undefined, [Call.ngx_log_error "unsupported algorithm %s"])
  else
    (key_result.unauthorized, [Call.ngx_log_error "unsupported algorithm %s"])

/-- Lines 198-228 of the handler: decode, check the algorithm, check `exp`. -/
def handler_validate (h : Host) (jwtcf : ngx_http_auth_jwt_loc_conf_t)
    (jwtPtr keyBinary : List Char) (keylen : Int) (trace : List Call) : Int × List Call :=
  -- validate the jwt
  match h.jwt_decode jwtPtr keyBinary keylen with
  | Except.error _ =>
    unauthorized jwtcf none
      (trace ++ [Call.jwt_decode jwtPtr keyBinary keylen,
        Call.ngx_log_error "failed to parse JWT, error code %d"])
  | Except.ok jwt =>
    -- validate the algorithm
    let alg := jwt_get_alg jwt
    if alg ≠ jwt_alg_t.JWT_ALG_HS256 ∧ alg ≠ jwt_alg_t.JWT_ALG_HS384 ∧
        alg ≠ jwt_alg_t.JWT_ALG_HS512 ∧ alg ≠ jwt_alg_t.JWT_ALG_RS256 ∧
        alg ≠ jwt_alg_t.JWT_ALG_RS384 ∧ alg ≠ jwt_alg_t.JWT_ALG_RS512 then
      unauthorized jwtcf (some jwt)
        (trace ++ [Call.jwt_decode jwtPtr keyBinary keylen,
          Call.ngx_log_error "invalid algorithm in JWT (%d)"])
    else
      -- validate the exp date of the JWT
      let exp : Int := jwt_get_grant_int jwt lit_exp
      let now : Int := h.time
      if exp < now then
        unauthorized jwtcf (some jwt)
          (trace ++ [Call.jwt_decode jwtPtr keyBinary keylen,
            Call.ngx_log_error "the JWT has expired"])
      else
        (NGX_OK, trace ++ [Call.jwt_decode jwtPtr keyBinary keylen, Call.jwt_free])

/-- A run of the handler that returns: `some` of the status, and the calls. -/
@[reducible]
def returned (x : Int × List Call) : Option Int × List Call := (some x.1, x.2)

/-- The function `ngx_http_auth_jwt_handler`: `some` of the status returned
(`none` when the run ends in undefined behaviour and nothing is returned) and
the external calls made, in order. -/
def ngx_http_auth_jwt_handler (h : Host) (jwtcf : ngx_http_auth_jwt_loc_conf_t)
    (r : ngx_http_request_t) : Option Int × List Call :=
  if jwtcf.auth_jwt_enabled = 0 then
    (some NGX_DECLINED, [])
  -- pass through options requests without token authentication
  else if r.method = NGX_HTTP_OPTIONS then
    (some NGX_DECLINED, [])
  else
    match getJwt h r jwtcf.auth_jwt_validation_type with
    | (none, t1) =>
      returned (unauthorized jwtcf none (t1 ++ [Call.ngx_log_error "failed to find a JWT"]))
    | (some jwtPtr, t1) =>
      match handler_key h jwtcf with
      | (key_result.undefined, t2) => (none, t1 ++ t2)
      | (key_result.unauthorized, t2) => returned (unauthorized jwtcf none (t1 ++ t2))
      | (key_result.key keyBinary keylen, t2) =>
        returned (handler_validate h jwtcf jwtPtr keyBinary keylen (t1 ++ t2))

/-- The six algorithms of the allowlist test on line 210. -/
def alg_allowlisted (alg : jwt_alg_t) : Prop :=
  alg = jwt_alg_t.JWT_ALG_HS256 ∨ alg = jwt_alg_t.JWT_ALG_HS384 ∨
  alg = jwt_alg_t.JWT_ALG_HS512 ∨ alg = jwt_alg_t.JWT_ALG_RS256 ∨
  alg = jwt_alg_t.JWT_ALG_RS384 ∨ alg = jwt_alg_t.JWT_ALG_RS512

instance alg_allowlisted_decidable (alg : jwt_alg_t) : Decidable (alg_allowlisted alg) := by
  unfold alg_allowlisted
  infer_instance

/-- Whether a call is a call of `jwt_decode`. -/
def Call.is_jwt_decode : Call → Bool
  | Call.jwt_decode _ _ _ => true
  | _ => false

/-- Whether a call is a call of `hex_to_binary`. -/
def Call.is_hex_to_binary : Call → Bool
  | Call.hex_to_binary _ => true
  | _ => false

/-! ## Configuration time: loadAuthKey and ngx_http_auth_jwt_merge_loc_conf -/

/-- The struct `ngx_http_auth_jwt_loc_conf_t` before merging, as
`ngx_http_auth_jwt_create_loc_conf` and the directive setters leave it: a
string whose directive is absent has `data` NULL (`none`), an absent flag or
number is -1.  The private `_auth_jwt_keyfile` is zeroed by `ngx_pcalloc`. -/
structure loc_conf_directives where
  auth_jwt_key : Option (List Char)
  auth_jwt_enabled : Int
  auth_jwt_validation_type : Option (List Char)
  auth_jwt_algorithm : Option (List Char)
  auth_jwt_keyfile_path : Option (List Char)
  auth_jwt_use_keyfile : Int
  auth_jwt_failure_status : Int
  deriving DecidableEq, Repr

/-- The function `ngx_http_auth_jwt_create_loc_conf` (lines 258-277). -/
def ngx_http_auth_jwt_create_loc_conf : loc_conf_directives :=
  { auth_jwt_key := none
    auth_jwt_enabled := -1
    auth_jwt_validation_type := none
    auth_jwt_algorithm := none
    auth_jwt_keyfile_path := none
    auth_jwt_use_keyfile := -1
    auth_jwt_failure_status := NGX_CONF_UNSET }

/-- nginx: the macro `ngx_conf_merge_str_value`. -/
def ngx_conf_merge_str_value (conf prev : Option (List Char)) (dflt : List Char) : List Char :=
  match conf with
  | some c => c
  | none =>
    match prev with
    | some p => p
    | none => dflt

/-- nginx: the macro `ngx_conf_merge_value`. -/
def ngx_conf_merge_value (conf prev dflt : Int) : Int :=
  if conf = NGX_CONF_UNSET then (if prev = NGX_CONF_UNSET then dflt else prev) else conf

/-- The C string a `data` pointer denotes: the bytes before the first NUL. -/
def c_str (s : List Char) : List Char := s.takeWhile (fun c => c != Char.ofNat 0)

/-- `ngx_strcmp(s1, s2)`: 0 when the two C strings are equal. -/
def ngx_strcmp (s1 s2 : List Char) : Int := if c_str s1 = c_str s2 then 0 else 1

/-- A file as stdio shows it: its content, and how many bytes `fread` manages
to deliver (a short read when this is below the number asked for). -/
structure FILE where
  content : List Char
  readable : Nat
  deriving DecidableEq, Repr

/-- The file system at configuration time: `fopen path "rb"`, `none` for NULL. -/
structure FileSystem where
  fopen : List Char → Option FILE

/-- `fseek(SEEK_END)` then `ftell`: the size of the file (file sizes fit in
`unsigned long`). -/
def ftell_end (f : FILE) : Nat := f.content.length

/-- `fread(buf, 1, n, f)` from the start of the file: the bytes delivered
into the buffer; their number is the value returned. -/
def fread (f : FILE) (n : Nat) : List Char := f.content.take (min n f.readable)

/-- The function `loadAuthKey` (lines 280-319): the status and the
configuration as it leaves it. -/
def loadAuthKey (fs : FileSystem) (conf : ngx_http_auth_jwt_loc_conf_t) :
    Int × ngx_http_auth_jwt_loc_conf_t :=
  match fs.fopen (c_str conf.auth_jwt_keyfile_path) with
  | none => (NGX_ERROR, conf)
  | some keyFile =>
    -- Read file length
    let keySize : Nat := ftell_end keyFile
    if keySize = 0 then
      (NGX_ERROR, conf)
    else
      let buf : List Char := fread keyFile keySize
      let keySizeRead : Nat := buf.length
      if keySizeRead = keySize then
        (NGX_OK, { conf with
          _auth_jwt_keyfile := { data := buf, len := toSizeT (toInt32 keySize) } })
      else
        (NGX_ERROR, { conf with
          _auth_jwt_keyfile := { data := buf, len := conf._auth_jwt_keyfile.len } })

/-- The two values `ngx_http_auth_jwt_merge_loc_conf` returns. -/
inductive conf_rc where
  | NGX_CONF_OK
  | NGX_CONF_ERROR
  deriving DecidableEq, Repr

/-- Lines 327-341 of `ngx_http_auth_jwt_merge_loc_conf`: the child
configuration after the seven values are merged with the parent's and the
defaults; the private `_auth_jwt_keyfile` is still as `ngx_pcalloc` left it. -/
def merge_values (prev conf : loc_conf_directives) : ngx_http_auth_jwt_loc_conf_t :=
  { auth_jwt_key := ngx_conf_merge_str_value conf.auth_jwt_key prev.auth_jwt_key []
    auth_jwt_validation_type :=
      ngx_conf_merge_str_value conf.auth_jwt_validation_type prev.auth_jwt_validation_type []
    auth_jwt_algorithm :=
      ngx_conf_merge_str_value conf.auth_jwt_algorithm prev.auth_jwt_algorithm lit_HS256
    auth_jwt_keyfile_path :=
      ngx_conf_merge_str_value conf.auth_jwt_keyfile_path prev.auth_jwt_keyfile_path []
    auth_jwt_failure_status :=
      ngx_conf_merge_value conf.auth_jwt_failure_status prev.auth_jwt_failure_status 401
    auth_jwt_enabled :=
      if conf.auth_jwt_enabled = -1 then
        (if prev.auth_jwt_enabled = -1 then 0 else prev.auth_jwt_enabled)
      else conf.auth_jwt_enabled
    auth_jwt_use_keyfile :=
      if conf.auth_jwt_use_keyfile = -1 then
        (if prev.auth_jwt_use_keyfile = -1 then 0 else prev.auth_jwt_use_keyfile)
      else conf.auth_jwt_use_keyfile
    _auth_jwt_keyfile := { data := [], len := 0 } }

/-- The function `ngx_http_auth_jwt_merge_loc_conf` (lines 321-359): the
value returned and the child configuration as it leaves it. -/
def ngx_http_auth_jwt_merge_loc_conf (fs : FileSystem) (prev conf : loc_conf_directives) :
    conf_rc × ngx_http_auth_jwt_loc_conf_t :=
  let merged : ngx_http_auth_jwt_loc_conf_t := merge_values prev conf
  -- If the usage of the keyfile is specified, check if the key_path is also configured
  if merged.auth_jwt_use_keyfile = 1 then
    if ngx_strcmp merged.auth_jwt_keyfile_path [] ≠ 0 then
      if (loadAuthKey fs merged).1 ≠ NGX_OK then
        (conf_rc.NGX_CONF_ERROR, (loadAuthKey fs merged).2)
      else
        (conf_rc.NGX_CONF_OK, (loadAuthKey fs merged).2)
    else
      (conf_rc.NGX_CONF_ERROR, merged)
  else
    (conf_rc.NGX_CONF_OK, merged)

/-! ## Sample collaborators, used to instantiate the theorems -/

/-- A sample decoded token with algorithm `alg` and grant `exp`. -/
def sample_jwt (alg : jwt_alg_t) (exp : Int) : jwt_t :=
  { alg := alg, grant_int := fun name => if name = lit_exp then exp else 0 }

/-- The value of a hexadecimal digit, `none` for any other byte. -/
def sample_hex_digit (c : Char) : Option Nat :=
  if 48 ≤ c.toNat ∧ c.toNat ≤ 57 then some (c.toNat - 48)
  else if 97 ≤ c.toNat ∧ c.toNat ≤ 102 then some (c.toNat - 87)
  else if 65 ≤ c.toNat ∧ c.toNat ≤ 70 then some (c.toNat - 55)
  else none

/-- A sample hex decoder: two digits a byte, failing on an odd length or on a
byte that is not a hexadecimal digit. -/
def sample_hex_to_binary : List Char → Option (List Char)
  | [] => some []
  | [_] => none
  | a :: b :: rest =>
    match sample_hex_digit a, sample_hex_digit b, sample_hex_to_binary rest with
    | some hi, some lo, some tl => some (Char.ofNat (16 * hi + lo) :: tl)
    | _, _, _ => none

/-- A sample host: the first header of that exact name, the first cookie line
starting with `name=`, the sample hex decoder, a decoder accepting every
token as one of algorithm `alg` and expiry `exp`, the clock at `now`, and the
error log at nginx's default level. -/
def sample_host (alg : jwt_alg_t) (exp now : Int) : Host :=
  { search_headers_in := fun r name => r.headers.lookup name
    ngx_http_parse_multi_header_lines := fun cookies name =>
      cookies.findSome? (fun line =>
        if line.take (name.length + 1) = name ++ [Char.ofNat 61] then
          some (line.drop (name.length + 1))
        else none)
    hex_to_binary := sample_hex_to_binary
    jwt_decode := fun _ _ _ => Except.ok (sample_jwt alg exp)
    time := now
    log_level := NGX_LOG_ERR }

/-- The sample inline key "6b6579", the hex encoding of the bytes `key`. -/
def sample_key : List Char := ['6', 'b', '6', '5', '7', '9']

/-- A sample request: a GET (method bit 2) with `Authorization: Bearer abc`
and the cookie line `a=tok`. -/
def sample_request : ngx_http_request_t :=
  { method := 2
    headers := [(authorizationHeaderName, lit_Bearer ++ ['a', 'b', 'c'])]
    cookies := [['a', Char.ofNat 61, 't', 'o', 'k']] }

/-- A sample enabled policy with the algorithm label `label` and validation
type `vt`: the inline key `sample_key`, no key file, failure status 401. -/
def sample_conf (label vt : List Char) : ngx_http_auth_jwt_loc_conf_t :=
  { auth_jwt_key := sample_key
    auth_jwt_enabled := 1
    auth_jwt_validation_type := vt
    auth_jwt_algorithm := label
    auth_jwt_keyfile_path := []
    auth_jwt_use_keyfile := 0
    auth_jwt_failure_status := 401
    _auth_jwt_keyfile := { data := [], len := 0 } }

/-- A sample policy for the RSA family with a loaded key file: label
"RS256", `auth_jwt_use_keyfile` 1, the key file bytes `pem` stored with their
length. -/
def sample_keyfile_conf (pem : List Char) : ngx_http_auth_jwt_loc_conf_t :=
  { sample_conf lit_RS256 lit_AUTHORIZATION with
    auth_jwt_use_keyfile := 1
    auth_jwt_keyfile_path := ['k']
    _auth_jwt_keyfile := { data := pem, len := pem.length } }

/-- A key file of exactly 2^32 bytes (4 GiB), read in full. -/
def four_GiB_file : FILE :=
  { content := List.replicate 4294967296 'k', readable := 4294967296 }

/-- A file system in which every path opens `four_GiB_file`. -/
def four_GiB_fs : FileSystem := { fopen := fun _ => some four_GiB_file }

/-- The directives `auth_jwt_use_keyfile on; auth_jwt_keyfile_path k;` on a
fresh location configuration. -/
def keyfile_directives : loc_conf_directives :=
  { ngx_http_auth_jwt_create_loc_conf with
    auth_jwt_use_keyfile := 1
    auth_jwt_keyfile_path := some ['k'] }

/-- The directives `auth_jwt_enabled on; auth_jwt_algorithm RS256;
auth_jwt_use_keyfile on; auth_jwt_keyfile_path k;` on a fresh location
configuration. -/
def rsa_keyfile_directives : loc_conf_directives :=
  { ngx_http_auth_jwt_create_loc_conf with
    auth_jwt_enabled := 1
    auth_jwt_algorithm := some lit_RS256
    auth_jwt_use_keyfile := 1
    auth_jwt_keyfile_path := some ['k'] }

/-- The policy that merging `rsa_keyfile_directives` leaves when the key file
is `four_GiB_file`: the 2^32 bytes of the file as `data`, and `len` 0. -/
def four_GiB_conf : ngx_http_auth_jwt_loc_conf_t :=
  { merge_values ngx_http_auth_jwt_create_loc_conf rsa_keyfile_directives with
    _auth_jwt_keyfile := { data := four_GiB_file.content, len := 0 } }

/-! ## Theorems -/

/-- Below 2^31 the conversion to `int` changes nothing. -/
theorem toInt32_of_lt (n : Nat) (hn : n < 2147483648) : toInt32 n = (n : Int) := by
  unfold toInt32
  have hmod : n % 4294967296 = n := Nat.mod_eq_of_lt (by omega)
  rw [hmod, if_pos hn]

/-- The header branch of `getJwt` is taken exactly for the empty validation
type and for "AUTHORIZATION". -/
theorem getJwt_header_branch (vt : List Char) :
    (vt.length = 0 ∨ (vt.length = sizeof_lit lit_AUTHORIZATION - 1 ∧
      ngx_strncmp vt lit_AUTHORIZATION (sizeof_lit lit_AUTHORIZATION - 1) = 0)) ↔
    (vt = [] ∨ vt = lit_AUTHORIZATION) := by
  constructor
  · rintro (h0 | ⟨hl, hc⟩)
    · left
      exact List.length_eq_zero.mp h0
    · right
      have h13 : vt.length = 13 := by simpa [sizeof_lit, lit_AUTHORIZATION] using hl
      unfold ngx_strncmp at hc
      split at hc
      · rename_i heq
        have e1 : List.take 13 vt = vt := List.take_of_length_le (by omega)
        simpa [sizeof_lit, lit_AUTHORIZATION, e1] using heq
      · simp at hc
  · rintro (h0 | h1)
    · left
      simp [h0]
    · right
      subst h1
      simp [sizeof_lit, lit_AUTHORIZATION, ngx_strncmp]

/-- C5: with `auth_jwt_validation_type` empty or exactly "AUTHORIZATION",
`getJwt` returns not-found when the Authorization header is absent or its
value has at most 7 bytes, returns the value without its first 7 bytes
(whatever they are) when it has more than 7, and so returns exactly `t` for
the value "Bearer " followed by a non-empty `t`. -/
theorem getJwt_authorization_header (h : Host) (r : ngx_http_request_t) (vt : List Char)
    (hvt : vt = [] ∨ vt = lit_AUTHORIZATION) :
    (h.search_headers_in r authorizationHeaderName = none → (getJwt h r vt).1 = none) ∧
    (∀ v, h.search_headers_in r authorizationHeaderName = some v → v.length ≤ 7 →
      (getJwt h r vt).1 = none) ∧
    (∀ v, h.search_headers_in r authorizationHeaderName = some v → 7 < v.length →
      (getJwt h r vt).1 = some (v.drop 7)) ∧
    (∀ t, t ≠ [] → h.search_headers_in r authorizationHeaderName = some (lit_Bearer ++ t) →
      (getJwt h r vt).1 = some t) := by
  have hb := (getJwt_header_branch vt).mpr hvt
  have key : ∀ v, h.search_headers_in r authorizationHeaderName = some v → 7 < v.length →
      (getJwt h r vt).1 = some (v.drop 7) := by
    intro v hv hlen
    unfold getJwt
    rw [if_pos hb, hv]
    have hpos : (v.length : Int) - ((sizeof_lit lit_Bearer : Int) - 1) > 0 := by
      simp [sizeof_lit, lit_Bearer]
      omega
    simp only [hpos, if_true]
    simp only [ngx_str_t_to_char_ptr]
    congr 1
    apply List.take_of_length_le
    simp [sizeof_lit, lit_Bearer]
    omega
  refine ⟨?_, ?_, key, ?_⟩
  · intro hnone
    unfold getJwt
    rw [if_pos hb, hnone]
  · intro v hv hlen
    unfold getJwt
    rw [if_pos hb, hv]
    have hneg : ¬ ((v.length : Int) - ((sizeof_lit lit_Bearer : Int) - 1) > 0) := by
      simp [sizeof_lit, lit_Bearer]
      omega
    simp only [hneg, if_false]
  · intro t ht hv
    have hlen : 7 < (lit_Bearer ++ t).length := by
      have : 0 < t.length := List.length_pos.mpr ht
      simp [lit_Bearer]
      omega
    have := key _ hv hlen
    simpa [lit_Bearer] using this

/-- C5 at a concrete request: the sample request carries `Authorization:
Bearer abc` and `getJwt` returns `abc`, for "AUTHORIZATION". -/
theorem getJwt_authorization_header_witness :
    (lit_AUTHORIZATION = [] ∨ lit_AUTHORIZATION = lit_AUTHORIZATION) ∧
    (getJwt (sample_host jwt_alg_t.JWT_ALG_HS256 2000 1000) sample_request lit_AUTHORIZATION).1
      = some ['a', 'b', 'c'] :=
  ⟨Or.inr rfl,
    (getJwt_authorization_header (sample_host jwt_alg_t.JWT_ALG_HS256 2000 1000) sample_request
      lit_AUTHORIZATION (Or.inr rfl)).2.2.2 ['a', 'b', 'c'] (by decide) (by decide)⟩

/-- The test on line 210 jumps to `unauthorized` exactly when the algorithm
is outside the allowlist. -/
theorem line210_iff (alg : jwt_alg_t) :
    (alg ≠ jwt_alg_t.JWT_ALG_HS256 ∧ alg ≠ jwt_alg_t.JWT_ALG_HS384 ∧
      alg ≠ jwt_alg_t.JWT_ALG_HS512 ∧ alg ≠ jwt_alg_t.JWT_ALG_RS256 ∧
      alg ≠ jwt_alg_t.JWT_ALG_RS384 ∧ alg ≠ jwt_alg_t.JWT_ALG_RS512) ↔ ¬ alg_allowlisted alg := by
  unfold alg_allowlisted
  cases alg <;> simp

/-- `getJwt` calls neither `jwt_decode` nor `hex_to_binary`. -/
theorem getJwt_trace (h : Host) (r : ngx_http_request_t) (vt : List Char) :
    (getJwt h r vt).2.any Call.is_jwt_decode = false ∧
    (getJwt h r vt).2.any Call.is_hex_to_binary = false := by
  unfold getJwt
  split
  · split
    · dsimp only
      split <;> simp [Call.is_jwt_decode, Call.is_hex_to_binary]
    · simp [Call.is_jwt_decode, Call.is_hex_to_binary]
  · split
    · dsimp only
      split <;> simp [Call.is_jwt_decode, Call.is_hex_to_binary]
    · simp

/-- `handler_key` never calls `jwt_decode`. -/
theorem handler_key_trace (h : Host) (jwtcf : ngx_http_auth_jwt_loc_conf_t) :
    (handler_key h jwtcf).2.any Call.is_jwt_decode = false := by
  unfold handler_key
  simp only
  split
  · split <;> simp [Call.is_jwt_decode]
  · split
    · split <;> simp
    · split <;> simp [Call.is_jwt_decode]

/-- The handler on an enabled policy and a method other than OPTIONS, when no
token is found. -/
theorem handler_not_found (h : Host) (jwtcf : ngx_http_auth_jwt_loc_conf_t)
    (r : ngx_http_request_t) (t1 : List Call)
    (hen : jwtcf.auth_jwt_enabled ≠ 0) (hm : r.method ≠ NGX_HTTP_OPTIONS)
    (hloc : getJwt h r jwtcf.auth_jwt_validation_type = (none, t1)) :
    ngx_http_auth_jwt_handler h jwtcf r =
      (some jwtcf.auth_jwt_failure_status, t1 ++ [Call.ngx_log_error "failed to find a JWT"]) := by
  unfold ngx_http_auth_jwt_handler
  rw [if_neg hen, if_neg hm, hloc]
  rfl

/-- The handler on an enabled policy and a method other than OPTIONS, when a
token is found and the key block jumps to `unauthorized`. -/
theorem handler_key_denied (h : Host) (jwtcf : ngx_http_auth_jwt_loc_conf_t)
    (r : ngx_http_request_t) (tok : List Char) (t1 t2 : List Call)
    (hen : jwtcf.auth_jwt_enabled ≠ 0) (hm : r.method ≠ NGX_HTTP_OPTIONS)
    (hloc : getJwt h r jwtcf.auth_jwt_validation_type = (some tok, t1))
    (hkey : handler_key h jwtcf = (key_result.unauthorized, t2)) :
    ngx_http_auth_jwt_handler h jwtcf r = (some jwtcf.auth_jwt_failure_status, t1 ++ t2) := by
  unfold ngx_http_auth_jwt_handler
  rw [if_neg hen, if_neg hm, hloc]
  simp only [hkey]
  rfl

/-- The handler on an enabled policy and a method other than OPTIONS, when a
token is found and the key block yields a key: the validation block runs. -/
theorem handler_validates (h : Host) (jwtcf : ngx_http_auth_jwt_loc_conf_t)
    (r : ngx_http_request_t) (tok key : List Char) (keylen : Int) (t1 t2 : List Call)
    (hen : jwtcf.auth_jwt_enabled ≠ 0) (hm : r.method ≠ NGX_HTTP_OPTIONS)
    (hloc : getJwt h r jwtcf.auth_jwt_validation_type = (some tok, t1))
    (hkey : handler_key h jwtcf = (key_result.key key keylen, t2)) :
    ngx_http_auth_jwt_handler h jwtcf r =
      returned (handler_validate h jwtcf tok key keylen (t1 ++ t2)) := by
  unfold ngx_http_auth_jwt_handler
  rw [if_neg hen, if_neg hm, hloc]
  simp only [hkey]

/-- The validation block when the decoded algorithm is allowlisted and `exp`
is not below `now`. -/
theorem handler_validate_ok (h : Host) (jwtcf : ngx_http_auth_jwt_loc_conf_t)
    (tok key : List Char) (keylen : Int) (t : List Call) (jwt : jwt_t)
    (hdec : h.jwt_decode tok key keylen = Except.ok jwt)
    (halg : alg_allowlisted (jwt_get_alg jwt))
    (hexp : jwt_get_grant_int jwt lit_exp ≥ h.time) :
    handler_validate h jwtcf tok key keylen t =
      (NGX_OK, t ++ [Call.jwt_decode tok key keylen, Call.jwt_free]) := by
  unfold handler_validate
  rw [hdec]
  simp only
  rw [if_neg (fun hc => (line210_iff _).mp hc halg), if_neg (not_lt.mpr hexp)]

/-- The validation block when `jwt_decode` fails. -/
theorem handler_validate_decode_failed (h : Host) (jwtcf : ngx_http_auth_jwt_loc_conf_t)
    (tok key : List Char) (keylen : Int) (t : List Call) (code : Int)
    (hdec : h.jwt_decode tok key keylen = Except.error code) :
    handler_validate h jwtcf tok key keylen t =
      (jwtcf.auth_jwt_failure_status,
        t ++ [Call.jwt_decode tok key keylen,
          Call.ngx_log_error "failed to parse JWT, error code %d"]) := by
  unfold handler_validate
  rw [hdec]
  rfl

/-- The validation block when the decoded algorithm is outside the allowlist. -/
theorem handler_validate_alg_denied (h : Host) (jwtcf : ngx_http_auth_jwt_loc_conf_t)
    (tok key : List Char) (keylen : Int) (t : List Call) (jwt : jwt_t)
    (hdec : h.jwt_decode tok key keylen = Except.ok jwt)
    (halg : ¬ alg_allowlisted (jwt_get_alg jwt)) :
    handler_validate h jwtcf tok key keylen t =
      (jwtcf.auth_jwt_failure_status,
        t ++ [Call.jwt_decode tok key keylen,
          Call.ngx_log_error "invalid algorithm in JWT (%d)"] ++ [Call.jwt_free]) := by
  unfold handler_validate
  rw [hdec]
  simp only
  rw [if_pos ((line210_iff _).mpr halg)]
  rfl

/-- The validation block when the algorithm is allowlisted and `exp` is
below `now`. -/
theorem handler_validate_expired (h : Host) (jwtcf : ngx_http_auth_jwt_loc_conf_t)
    (tok key : List Char) (keylen : Int) (t : List Call) (jwt : jwt_t)
    (hdec : h.jwt_decode tok key keylen = Except.ok jwt)
    (halg : alg_allowlisted (jwt_get_alg jwt))
    (hexp : jwt_get_grant_int jwt lit_exp < h.time) :
    handler_validate h jwtcf tok key keylen t =
      (jwtcf.auth_jwt_failure_status,
        t ++ [Call.jwt_decode tok key keylen,
          Call.ngx_log_error "the JWT has expired"] ++ [Call.jwt_free]) := by
  unfold handler_validate
  rw [hdec]
  simp only
  rw [if_neg (fun hc => (line210_iff _).mp hc halg), if_pos hexp]
  rfl

/-- C1: on an enabled policy, a method other than OPTIONS, a located token
and a resolved key, the handler returns NGX_OK when `jwt_decode` returns 0,
the decoded algorithm is one of the six allowlisted and `exp >= now`; in
every other case it returns `auth_jwt_failure_status`, and the first failing
step in the order decode, allowlist, expiration decides (and is the one
logged): a decode failure whatever else, an algorithm outside the allowlist
whatever `exp`, then `exp < now`. -/
theorem handler_decision (h : Host) (jwtcf : ngx_http_auth_jwt_loc_conf_t)
    (r : ngx_http_request_t) (tok key : List Char) (keylen : Int) (t1 t2 : List Call)
    (hen : jwtcf.auth_jwt_enabled ≠ 0) (hm : r.method ≠ NGX_HTTP_OPTIONS)
    (hloc : getJwt h r jwtcf.auth_jwt_validation_type = (some tok, t1))
    (hkey : handler_key h jwtcf = (key_result.key key keylen, t2)) :
    ((∃ jwt, h.jwt_decode tok key keylen = Except.ok jwt ∧ alg_allowlisted (jwt_get_alg jwt) ∧
        jwt_get_grant_int jwt lit_exp ≥ h.time) →
      (ngx_http_auth_jwt_handler h jwtcf r).1 = some NGX_OK) ∧
    (¬ (∃ jwt, h.jwt_decode tok key keylen = Except.ok jwt ∧ alg_allowlisted (jwt_get_alg jwt) ∧
        jwt_get_grant_int jwt lit_exp ≥ h.time) →
      (ngx_http_auth_jwt_handler h jwtcf r).1 = some jwtcf.auth_jwt_failure_status) ∧
    (∀ code, h.jwt_decode tok key keylen = Except.error code →
      ngx_http_auth_jwt_handler h jwtcf r =
        (some jwtcf.auth_jwt_failure_status,
          t1 ++ t2 ++ [Call.jwt_decode tok key keylen,
            Call.ngx_log_error "failed to parse JWT, error code %d"])) ∧
    (∀ jwt, h.jwt_decode tok key keylen = Except.ok jwt → ¬ alg_allowlisted (jwt_get_alg jwt) →
      ngx_http_auth_jwt_handler h jwtcf r =
        (some jwtcf.auth_jwt_failure_status,
          t1 ++ t2 ++ [Call.jwt_decode tok key keylen,
            Call.ngx_log_error "invalid algorithm in JWT (%d)"] ++ [Call.jwt_free])) ∧
    (∀ jwt, h.jwt_decode tok key keylen = Except.ok jwt → alg_allowlisted (jwt_get_alg jwt) →
      jwt_get_grant_int jwt lit_exp < h.time →
      ngx_http_auth_jwt_handler h jwtcf r =
        (some jwtcf.auth_jwt_failure_status,
          t1 ++ t2 ++ [Call.jwt_decode tok key keylen,
            Call.ngx_log_error "the JWT has expired"] ++ [Call.jwt_free])) := by
  have hv := handler_validates h jwtcf r tok key keylen t1 t2 hen hm hloc hkey
  refine ⟨?_, ?_, ?_, ?_, ?_⟩
  · rintro ⟨jwt, hdec, halg, hexp⟩
    rw [hv, handler_validate_ok h jwtcf tok key keylen _ jwt hdec halg hexp]
  · intro hno
    rw [hv]
    cases hdec : h.jwt_decode tok key keylen with
    | error code => rw [handler_validate_decode_failed h jwtcf tok key keylen _ code hdec]
    | ok jwt =>
      by_cases halg : alg_allowlisted (jwt_get_alg jwt)
      · have hexp : jwt_get_grant_int jwt lit_exp < h.time := by
          by_contra hge
          exact hno ⟨jwt, hdec, halg, not_lt.mp hge⟩
        rw [handler_validate_expired h jwtcf tok key keylen _ jwt hdec halg hexp]
      · rw [handler_validate_alg_denied h jwtcf tok key keylen _ jwt hdec halg]
  · intro code hdec
    rw [hv, handler_validate_decode_failed h jwtcf tok key keylen _ code hdec]
  · intro jwt hdec halg
    rw [hv, handler_validate_alg_denied h jwtcf tok key keylen _ jwt hdec halg]
  · intro jwt hdec halg hexp
    rw [hv, handler_validate_expired h jwtcf tok key keylen _ jwt hdec halg hexp]

/-- C1 at a concrete request: label HS256, `Authorization: Bearer abc`, a
token decoding as HS256 with `exp` 2000 at time 1000: the handler returns
NGX_OK. -/
theorem handler_decision_witness :
    (sample_conf lit_HS256 lit_AUTHORIZATION).auth_jwt_enabled ≠ 0 ∧
    sample_request.method ≠ NGX_HTTP_OPTIONS ∧
    (ngx_http_auth_jwt_handler (sample_host jwt_alg_t.JWT_ALG_HS256 2000 1000)
      (sample_conf lit_HS256 lit_AUTHORIZATION) sample_request).1 = some NGX_OK :=
  ⟨by decide, by decide,
    (handler_decision (sample_host jwt_alg_t.JWT_ALG_HS256 2000 1000)
      (sample_conf lit_HS256 lit_AUTHORIZATION) sample_request ['a', 'b', 'c'] ['k', 'e', 'y'] 3
      [Call.search_headers_in authorizationHeaderName] [Call.hex_to_binary sample_key]
      (by decide) (by decide) (by decide) (by decide)).1
      ⟨sample_jwt jwt_alg_t.JWT_ALG_HS256 2000, rfl, by decide, by decide⟩⟩

/-- C2, as stated, fails: label HS256, `Authorization: Bearer abc`, a token
decoding as HS256 whose `exp` is 1000 at time 1000 exactly: the handler
returns NGX_OK, not the failure status 401. -/
theorem handler_exp_eq_now_counterexample :
    (sample_conf lit_HS256 lit_AUTHORIZATION).auth_jwt_enabled ≠ 0 ∧
    sample_request.method ≠ NGX_HTTP_OPTIONS ∧
    (getJwt (sample_host jwt_alg_t.JWT_ALG_HS256 1000 1000) sample_request lit_AUTHORIZATION).1
      = some ['a', 'b', 'c'] ∧
    (handler_key (sample_host jwt_alg_t.JWT_ALG_HS256 1000 1000)
      (sample_conf lit_HS256 lit_AUTHORIZATION)).1 = key_result.key ['k', 'e', 'y'] 3 ∧
    (∃ jwt, (sample_host jwt_alg_t.JWT_ALG_HS256 1000 1000).jwt_decode ['a', 'b', 'c']
        ['k', 'e', 'y'] 3
        = Except.ok jwt ∧ alg_allowlisted (jwt_get_alg jwt) ∧
      jwt_get_grant_int jwt lit_exp = (sample_host jwt_alg_t.JWT_ALG_HS256 1000 1000).time) ∧
    (ngx_http_auth_jwt_handler (sample_host jwt_alg_t.JWT_ALG_HS256 1000 1000)
      (sample_conf lit_HS256 lit_AUTHORIZATION) sample_request).1 = some NGX_OK ∧
    (ngx_http_auth_jwt_handler (sample_host jwt_alg_t.JWT_ALG_HS256 1000 1000)
      (sample_conf lit_HS256 lit_AUTHORIZATION) sample_request).1
      ≠ some (sample_conf lit_HS256 lit_AUTHORIZATION).auth_jwt_failure_status :=
  ⟨by decide, by decide, by decide, by decide,
    ⟨sample_jwt jwt_alg_t.JWT_ALG_HS256 1000, rfl, by decide, by decide⟩,
    by decide, by decide⟩

/-- C2, amended: on an enabled policy, a method other than OPTIONS, a located
token and a resolved key, a token that decodes with an allowlisted algorithm
and whose `exp` equals the current time is allowed: the handler returns
NGX_OK (line 220 denies only `exp < now`). -/
theorem handler_exp_eq_now (h : Host) (jwtcf : ngx_http_auth_jwt_loc_conf_t)
    (r : ngx_http_request_t) (tok key : List Char) (keylen : Int) (t1 t2 : List Call)
    (jwt : jwt_t)
    (hen : jwtcf.auth_jwt_enabled ≠ 0) (hm : r.method ≠ NGX_HTTP_OPTIONS)
    (hloc : getJwt h r jwtcf.auth_jwt_validation_type = (some tok, t1))
    (hkey : handler_key h jwtcf = (key_result.key key keylen, t2))
    (hdec : h.jwt_decode tok key keylen = Except.ok jwt)
    (halg : alg_allowlisted (jwt_get_alg jwt))
    (hexp : jwt_get_grant_int jwt lit_exp = h.time) :
    (ngx_http_auth_jwt_handler h jwtcf r).1 = some NGX_OK := by
  rw [handler_validates h jwtcf r tok key keylen t1 t2 hen hm hloc hkey,
    handler_validate_ok h jwtcf tok key keylen _ jwt hdec halg (le_of_eq hexp.symm)]

/-- C2 amended, at a concrete request: `exp` 1000 at time 1000 is allowed. -/
theorem handler_exp_eq_now_witness :
    jwt_get_grant_int (sample_jwt jwt_alg_t.JWT_ALG_RS256 1000) lit_exp
      = (sample_host jwt_alg_t.JWT_ALG_RS256 1000 1000).time ∧
    (ngx_http_auth_jwt_handler (sample_host jwt_alg_t.JWT_ALG_RS256 1000 1000)
      (sample_conf lit_HS256 lit_AUTHORIZATION) sample_request).1 = some NGX_OK :=
  ⟨by decide,
    handler_exp_eq_now (sample_host jwt_alg_t.JWT_ALG_RS256 1000 1000)
      (sample_conf lit_HS256 lit_AUTHORIZATION) sample_request ['a', 'b', 'c'] ['k', 'e', 'y'] 3
      [Call.search_headers_in authorizationHeaderName] [Call.hex_to_binary sample_key]
      (sample_jwt jwt_alg_t.JWT_ALG_RS256 1000)
      (by decide) (by decide) (by decide) (by decide) rfl (by decide) (by decide)⟩

/-- `loadAuthKey` leaves the failure status alone. -/
theorem loadAuthKey_failure_status (fs : FileSystem) (conf : ngx_http_auth_jwt_loc_conf_t) :
    (loadAuthKey fs conf).2.auth_jwt_failure_status = conf.auth_jwt_failure_status := by
  unfold loadAuthKey
  split
  · rfl
  · dsimp only
    split
    · rfl
    · split <;> rfl

/-- The failure status after merging is the merged value, whether or not a
key file is loaded. -/
theorem merge_failure_status (fs : FileSystem) (prev conf : loc_conf_directives) :
    (ngx_http_auth_jwt_merge_loc_conf fs prev conf).2.auth_jwt_failure_status =
      ngx_conf_merge_value conf.auth_jwt_failure_status prev.auth_jwt_failure_status 401 := by
  unfold ngx_http_auth_jwt_merge_loc_conf
  dsimp only
  split
  · split
    · split
      · rw [loadAuthKey_failure_status]
        rfl
      · rw [loadAuthKey_failure_status]
        rfl
    · rfl
  · rfl

/-- C7: on an enabled policy and a method other than OPTIONS, when `getJwt`
returns not-found the handler returns `auth_jwt_failure_status`, having
called neither `hex_to_binary` nor `jwt_decode`; and that status is 401 when
no `auth_jwt_failure_status` directive is given at either level. -/
theorem handler_token_not_found (h : Host) (jwtcf : ngx_http_auth_jwt_loc_conf_t)
    (r : ngx_http_request_t)
    (hen : jwtcf.auth_jwt_enabled ≠ 0) (hm : r.method ≠ NGX_HTTP_OPTIONS)
    (hnf : (getJwt h r jwtcf.auth_jwt_validation_type).1 = none) :
    (ngx_http_auth_jwt_handler h jwtcf r).1 = some jwtcf.auth_jwt_failure_status ∧
    (ngx_http_auth_jwt_handler h jwtcf r).2.any Call.is_hex_to_binary = false ∧
    (ngx_http_auth_jwt_handler h jwtcf r).2.any Call.is_jwt_decode = false ∧
    (∀ (fs : FileSystem) (prev conf : loc_conf_directives),
      conf.auth_jwt_failure_status = NGX_CONF_UNSET →
      prev.auth_jwt_failure_status = NGX_CONF_UNSET →
      (ngx_http_auth_jwt_merge_loc_conf fs prev conf).2.auth_jwt_failure_status = 401) := by
  have hloc : getJwt h r jwtcf.auth_jwt_validation_type
      = (none, (getJwt h r jwtcf.auth_jwt_validation_type).2) := by
    rw [← hnf]
  have hh := handler_not_found h jwtcf r _ hen hm hloc
  have ht := getJwt_trace h r jwtcf.auth_jwt_validation_type
  refine ⟨?_, ?_, ?_, ?_⟩
  · rw [hh]
  · rw [hh]
    simp [ht.2, Call.is_hex_to_binary]
  · rw [hh]
    simp [ht.1, Call.is_jwt_decode]
  · intro fs prev conf hc hp
    rw [merge_failure_status, hc, hp]
    rfl

/-- C7 at a concrete request: validation type "AUTHORIZATION", a request
without an Authorization header, failure status 401: the handler returns
401. -/
theorem handler_token_not_found_witness :
    (ngx_http_auth_jwt_handler (sample_host jwt_alg_t.JWT_ALG_HS256 2000 1000)
      (sample_conf lit_HS256 lit_AUTHORIZATION)
      { method := 2, headers := [], cookies := [] }).1 = some 401 :=
  (handler_token_not_found (sample_host jwt_alg_t.JWT_ALG_HS256 2000 1000)
    (sample_conf lit_HS256 lit_AUTHORIZATION)
    { method := 2, headers := [], cookies := [] } (by decide) (by decide) (by decide)).1

/-- C8: when the policy is not enabled or the method is OPTIONS, the handler
returns NGX_DECLINED and makes no external call at all (no token lookup, no
key resolution, no decode), whatever the request, key and algorithm. -/
theorem handler_bypass (h : Host) (jwtcf : ngx_http_auth_jwt_loc_conf_t)
    (r : ngx_http_request_t)
    (hby : jwtcf.auth_jwt_enabled = 0 ∨ r.method = NGX_HTTP_OPTIONS) :
    ngx_http_auth_jwt_handler h jwtcf r = (some NGX_DECLINED, []) := by
  unfold ngx_http_auth_jwt_handler
  rcases hby with hd | ho
  · rw [if_pos hd]
  · by_cases hd : jwtcf.auth_jwt_enabled = 0
    · rw [if_pos hd]
    · rw [if_neg hd, if_pos ho]

/-- C8 at a concrete request: an OPTIONS request carrying a valid bearer
token on an enabled policy is passed through. -/
theorem handler_bypass_witness :
    ngx_http_auth_jwt_handler (sample_host jwt_alg_t.JWT_ALG_HS256 2000 1000)
      (sample_conf lit_HS256 lit_AUTHORIZATION)
      { sample_request with method := NGX_HTTP_OPTIONS } = (some NGX_DECLINED, []) :=
  handler_bypass (sample_host jwt_alg_t.JWT_ALG_HS256 2000 1000)
    (sample_conf lit_HS256 lit_AUTHORIZATION)
    { sample_request with method := NGX_HTTP_OPTIONS } (Or.inr rfl)

/-- The slip of line 194 at a concrete request: the label "none" with a
bearer token present and the error log at its default level.  The handler
reaches the log call of line 194, whose `%s` is given the `ngx_str_t` by
value: no status is returned (undefined behaviour), and `jwt_decode` has not
been called. -/
theorem handler_unsupported_label_default_log :
    ngx_http_auth_jwt_handler (sample_host jwt_alg_t.JWT_ALG_HS256 2000 1000)
      (sample_conf ['n', 'o', 'n', 'e'] lit_AUTHORIZATION) sample_request =
      (none, [Call.search_headers_in authorizationHeaderName,
        Call.ngx_log_error "unsupported algorithm %s"]) := by
  decide

/-- The validation block reads the policy only for its failure status: the
configured algorithm label does not enter the decision. -/
theorem handler_validate_label_free (h : Host) (jwtcf : ngx_http_auth_jwt_loc_conf_t)
    (label tok key : List Char) (keylen : Int) (t : List Call) :
    handler_validate h { jwtcf with auth_jwt_algorithm := label } tok key keylen t =
      handler_validate h jwtcf tok key keylen t := by
  unfold handler_validate
  cases h.jwt_decode tok key keylen with
  | error code => rfl
  | ok jwt => rfl

/-- C10: with an RSA-family label configured (5 bytes beginning with "RS"), a
token for which `jwt_decode` succeeds against the resolved key while
reporting HS256, HS384 or HS512, and whose `exp >= now`, is allowed: the
handler returns NGX_OK.  The key is the one the RSA branch resolves, and the
validation block gives the same result whatever label is configured. -/
theorem handler_rsa_label_hmac_token (h : Host) (jwtcf : ngx_http_auth_jwt_loc_conf_t)
    (r : ngx_http_request_t) (tok : List Char) (t1 : List Call) (jwt : jwt_t)
    (hen : jwtcf.auth_jwt_enabled ≠ 0) (hm : r.method ≠ NGX_HTTP_OPTIONS)
    (hloc : getJwt h r jwtcf.auth_jwt_validation_type = (some tok, t1))
    (hlen : jwtcf.auth_jwt_algorithm.length = 5)
    (hrs : jwtcf.auth_jwt_algorithm.take 2 = lit_RS)
    (hdec : h.jwt_decode tok
      (if jwtcf.auth_jwt_use_keyfile = 1 then jwtcf._auth_jwt_keyfile.data
        else jwtcf.auth_jwt_key)
      (if jwtcf.auth_jwt_use_keyfile = 1 then toInt32 jwtcf._auth_jwt_keyfile.len
        else toInt32 jwtcf.auth_jwt_key.length) = Except.ok jwt)
    (halg : jwt_get_alg jwt = jwt_alg_t.JWT_ALG_HS256 ∨ jwt_get_alg jwt = jwt_alg_t.JWT_ALG_HS384 ∨
      jwt_get_alg jwt = jwt_alg_t.JWT_ALG_HS512)
    (hexp : jwt_get_grant_int jwt lit_exp ≥ h.time) :
    (ngx_http_auth_jwt_handler h jwtcf r).1 = some NGX_OK ∧
    (∀ (label key : List Char) (keylen : Int) (t : List Call),
      handler_validate h { jwtcf with auth_jwt_algorithm := label } tok key keylen t =
        handler_validate h jwtcf tok key keylen t) := by
  have hallow : alg_allowlisted (jwt_get_alg jwt) := by
    unfold alg_allowlisted
    rcases halg with h1 | h1 | h1 <;> simp [h1]
  have hkey : handler_key h jwtcf =
      (key_result.key (if jwtcf.auth_jwt_use_keyfile = 1 then jwtcf._auth_jwt_keyfile.data
          else jwtcf.auth_jwt_key)
        (if jwtcf.auth_jwt_use_keyfile = 1 then toInt32 jwtcf._auth_jwt_keyfile.len
          else toInt32 jwtcf.auth_jwt_key.length), []) := by
    unfold handler_key
    dsimp only
    have h1 : ¬ (jwtcf.auth_jwt_algorithm.length = 0 ∨
        (jwtcf.auth_jwt_algorithm.length = 5 ∧
          ngx_strncmp jwtcf.auth_jwt_algorithm lit_HS 2 = 0)) := by
      rintro (h0 | ⟨_, hs⟩)
      · omega
      · unfold ngx_strncmp at hs
        rw [hrs] at hs
        simp [lit_RS, lit_HS] at hs
    have h2 : jwtcf.auth_jwt_algorithm.length = 5 ∧
        ngx_strncmp jwtcf.auth_jwt_algorithm lit_RS 2 = 0 := by
      refine ⟨hlen, ?_⟩
      unfold ngx_strncmp
      rw [hrs]
      simp [lit_RS]
    rw [if_neg h1, if_pos h2]
    by_cases hk : jwtcf.auth_jwt_use_keyfile = 1
    · simp only [if_pos hk]
    · simp only [if_neg hk]
  refine ⟨?_, fun label key keylen t => handler_validate_label_free h jwtcf label tok key keylen t⟩
  rw [handler_validates h jwtcf r tok _ _ t1 [] hen hm hloc hkey,
    handler_validate_ok h jwtcf tok _ _ _ jwt hdec hallow hexp]

/-- C10 at a concrete request: label "RS256", an inline key, a token that
decodes as HS256 with `exp` 2000 at time 1000: the handler returns NGX_OK. -/
theorem handler_rsa_label_hmac_token_witness :
    (ngx_http_auth_jwt_handler (sample_host jwt_alg_t.JWT_ALG_HS256 2000 1000)
      (sample_conf lit_RS256 lit_AUTHORIZATION) sample_request).1 = some NGX_OK :=
  (handler_rsa_label_hmac_token (sample_host jwt_alg_t.JWT_ALG_HS256 2000 1000)
    (sample_conf lit_RS256 lit_AUTHORIZATION) sample_request ['a', 'b', 'c']
    [Call.search_headers_in authorizationHeaderName] (sample_jwt jwt_alg_t.JWT_ALG_HS256 2000)
    (by decide) (by decide) (by decide) (by decide) (by decide) rfl (by decide) (by decide)).1

/-- A trace without a `jwt_decode` call contributes nothing to the list of
`jwt_decode` calls. -/
theorem filter_decode_nil (t : List Call) (ht : t.any Call.is_jwt_decode = false) :
    t.filter Call.is_jwt_decode = [] := by
  rw [List.filter_eq_nil_iff]
  intro a ha hd
  have : t.any Call.is_jwt_decode = true := List.any_eq_true.mpr ⟨a, ha, hd⟩
  rw [ht] at this
  exact Bool.noConfusion this

/-- The validation block makes exactly one `jwt_decode` call, with the token
and the key it was given. -/
theorem handler_validate_decode_call (h : Host) (jwtcf : ngx_http_auth_jwt_loc_conf_t)
    (tok key : List Char) (keylen : Int) (t : List Call)
    (ht : t.any Call.is_jwt_decode = false) :
    (handler_validate h jwtcf tok key keylen t).2.filter Call.is_jwt_decode =
      [Call.jwt_decode tok key keylen] := by
  have hnil := filter_decode_nil t ht
  unfold handler_validate
  cases h.jwt_decode tok key keylen with
  | error code => simp [unauthorized, hnil, Call.is_jwt_decode]
  | ok jwt =>
    dsimp only
    split
    · simp [unauthorized, hnil, Call.is_jwt_decode]
    · split
      · simp [unauthorized, hnil, Call.is_jwt_decode]
      · simp [hnil, Call.is_jwt_decode]

/-- What the key block does on every policy.  The key handed to `jwt_decode`
is computed by `handler_key` from the policy alone (no request enters it).
For a 5-byte label beginning with "RS"
it is the stored key file bytes with the stored `len` when
`auth_jwt_use_keyfile` is 1, and otherwise the inline `auth_jwt_key` bytes
with their length, no decoding call being made.  For an empty label or a
5-byte label beginning with "HS" it is the buffer `hex_to_binary` filled
from `auth_jwt_key`, with length `auth_jwt_key.len / 2`; when
`hex_to_binary` fails the handler returns `auth_jwt_failure_status` and
`jwt_decode` is not called.  The one `jwt_decode` call of the handler
carries exactly the located token and this key.  Each length reaches
`jwt_decode` through the C `int keylen`, which below 2^31 is the length
itself; the stored `len` of a key file is what `loadAuthKey` left there. -/
theorem handler_key_material (h : Host) (jwtcf : ngx_http_auth_jwt_loc_conf_t) :
    (jwtcf.auth_jwt_algorithm.length = 5 → jwtcf.auth_jwt_algorithm.take 2 = lit_RS →
      (jwtcf.auth_jwt_use_keyfile = 1 →
        handler_key h jwtcf =
          (key_result.key jwtcf._auth_jwt_keyfile.data (toInt32 jwtcf._auth_jwt_keyfile.len),
            [])) ∧
      (jwtcf.auth_jwt_use_keyfile ≠ 1 →
        handler_key h jwtcf =
          (key_result.key jwtcf.auth_jwt_key (toInt32 jwtcf.auth_jwt_key.length), []))) ∧
    ((jwtcf.auth_jwt_algorithm = [] ∨
        (jwtcf.auth_jwt_algorithm.length = 5 ∧ jwtcf.auth_jwt_algorithm.take 2 = lit_HS)) →
      (∀ keyBinary, h.hex_to_binary jwtcf.auth_jwt_key = some keyBinary →
        handler_key h jwtcf =
          (key_result.key keyBinary (toInt32 (jwtcf.auth_jwt_key.length / 2)),
            [Call.hex_to_binary jwtcf.auth_jwt_key])) ∧
      (h.hex_to_binary jwtcf.auth_jwt_key = none →
        ∀ r : ngx_http_request_t, jwtcf.auth_jwt_enabled ≠ 0 → r.method ≠ NGX_HTTP_OPTIONS →
          (ngx_http_auth_jwt_handler h jwtcf r).1 = some jwtcf.auth_jwt_failure_status ∧
          (ngx_http_auth_jwt_handler h jwtcf r).2.any Call.is_jwt_decode = false)) ∧
    (∀ (r : ngx_http_request_t) (tok key : List Char) (keylen : Int) (t1 t2 : List Call),
      jwtcf.auth_jwt_enabled ≠ 0 → r.method ≠ NGX_HTTP_OPTIONS →
      getJwt h r jwtcf.auth_jwt_validation_type = (some tok, t1) →
      handler_key h jwtcf = (key_result.key key keylen, t2) →
      (ngx_http_auth_jwt_handler h jwtcf r).2.filter Call.is_jwt_decode =
        [Call.jwt_decode tok key keylen]) ∧
    (∀ n : Nat, n < 2147483648 → toInt32 n = (n : Int)) := by
  refine ⟨?_, ?_, ?_, toInt32_of_lt⟩
  · intro hlen hrs
    have h1 : ¬ (jwtcf.auth_jwt_algorithm.length = 0 ∨
        (jwtcf.auth_jwt_algorithm.length = 5 ∧
          ngx_strncmp jwtcf.auth_jwt_algorithm lit_HS 2 = 0)) := by
      rintro (h0 | ⟨_, hs⟩)
      · omega
      · unfold ngx_strncmp at hs
        rw [hrs] at hs
        simp [lit_RS, lit_HS] at hs
    have h2 : jwtcf.auth_jwt_algorithm.length = 5 ∧
        ngx_strncmp jwtcf.auth_jwt_algorithm lit_RS 2 = 0 := by
      refine ⟨hlen, ?_⟩
      unfold ngx_strncmp
      rw [hrs]
      simp [lit_RS]
    constructor
    · intro hk
      unfold handler_key
      dsimp only
      rw [if_neg h1, if_pos h2, if_pos hk]
    · intro hk
      unfold handler_key
      dsimp only
      rw [if_neg h1, if_pos h2, if_neg hk]
  · intro hfam
    have h1 : jwtcf.auth_jwt_algorithm.length = 0 ∨
        (jwtcf.auth_jwt_algorithm.length = 5 ∧
          ngx_strncmp jwtcf.auth_jwt_algorithm lit_HS 2 = 0) := by
      rcases hfam with h0 | ⟨h5, hs⟩
      · left
        rw [h0]
        rfl
      · right
        refine ⟨h5, ?_⟩
        unfold ngx_strncmp
        rw [hs]
        simp [lit_HS]
    constructor
    · intro keyBinary hhex
      unfold handler_key
      dsimp only
      rw [if_pos h1, hhex]
    · intro hhex r hen hm
      have hkey : handler_key h jwtcf =
          (key_result.unauthorized, [Call.hex_to_binary jwtcf.auth_jwt_key,
            Call.ngx_log_error "failed to turn hex key into binary"]) := by
        unfold handler_key
        dsimp only
        rw [if_pos h1, hhex]
      have ht := getJwt_trace h r jwtcf.auth_jwt_validation_type
      cases hloc : getJwt h r jwtcf.auth_jwt_validation_type with
      | mk found t1 =>
        rw [hloc] at ht
        cases found with
        | none =>
          rw [handler_not_found h jwtcf r t1 hen hm hloc]
          refine ⟨rfl, ?_⟩
          simpa [Call.is_jwt_decode] using ht.1
        | some tok =>
          rw [handler_key_denied h jwtcf r tok t1 _ hen hm hloc hkey]
          refine ⟨rfl, ?_⟩
          simpa [Call.is_jwt_decode] using ht.1
  · intro r tok key keylen t1 t2 hen hm hloc hkey
    rw [handler_validates h jwtcf r tok key keylen t1 t2 hen hm hloc hkey]
    apply handler_validate_decode_call
    have ht1 := (getJwt_trace h r jwtcf.auth_jwt_validation_type).1
    have ht2 := handler_key_trace h jwtcf
    rw [hloc] at ht1
    rw [hkey] at ht2
    simp only [List.any_append, ht1, ht2, Bool.or_self]

/-- The key block at a concrete policy: label "RS256" with a loaded
three-byte key file: `jwt_decode` is handed those three bytes and the length
3. -/
theorem handler_key_material_sample :
    handler_key (sample_host jwt_alg_t.JWT_ALG_RS256 2000 1000)
      (sample_keyfile_conf ['p', 'e', 'm']) = (key_result.key ['p', 'e', 'm'] 3, []) ∧
    (ngx_http_auth_jwt_handler (sample_host jwt_alg_t.JWT_ALG_RS256 2000 1000)
      (sample_keyfile_conf ['p', 'e', 'm']) sample_request).2.filter Call.is_jwt_decode =
        [Call.jwt_decode ['a', 'b', 'c'] ['p', 'e', 'm'] 3] :=
  ⟨((handler_key_material (sample_host jwt_alg_t.JWT_ALG_RS256 2000 1000)
      (sample_keyfile_conf ['p', 'e', 'm'])).1 (by decide) (by decide)).1 (by decide),
    (handler_key_material (sample_host jwt_alg_t.JWT_ALG_RS256 2000 1000)
      (sample_keyfile_conf ['p', 'e', 'm'])).2.2.1 sample_request ['a', 'b', 'c']
      ['p', 'e', 'm'] 3 [Call.search_headers_in authorizationHeaderName] []
      (by decide) (by decide) (by decide) (by decide)⟩

/-- A validation type "COOKIE=" followed by a name does not take the header
branch of `getJwt`. -/
theorem cookie_not_header_branch (n : List Char) :
    ¬ ((lit_COOKIE_EQ ++ n).length = 0 ∨
      ((lit_COOKIE_EQ ++ n).length = sizeof_lit lit_AUTHORIZATION - 1 ∧
        ngx_strncmp (lit_COOKIE_EQ ++ n) lit_AUTHORIZATION
          (sizeof_lit lit_AUTHORIZATION - 1) = 0)) := by
  rw [getJwt_header_branch]
  rintro (h0 | h1)
  · simp [lit_COOKIE_EQ] at h0
  · simp [lit_COOKIE_EQ, lit_AUTHORIZATION] at h1

/-- The cookie branch of `getJwt` for a cookie name of at least two bytes:
the result is exactly the cookie lookup of that name among the Cookie header
lines, and the Authorization header is not consulted. -/
theorem getJwt_cookie_two_bytes (h : Host) (r : ngx_http_request_t) (n : List Char)
    (hn : 2 ≤ n.length) :
    getJwt h r (lit_COOKIE_EQ ++ n) =
      (h.ngx_http_parse_multi_header_lines r.cookies n,
        [Call.ngx_http_parse_multi_header_lines n]) := by
  have hc : (lit_COOKIE_EQ ++ n).length > sizeof_lit lit_COOKIE_EQ ∧
      ngx_strncmp (lit_COOKIE_EQ ++ n) lit_COOKIE_EQ (sizeof_lit lit_COOKIE_EQ - 1) = 0 := by
    constructor
    · simp [sizeof_lit, lit_COOKIE_EQ]
      omega
    · simp [ngx_strncmp, sizeof_lit, lit_COOKIE_EQ]
  have hd : (lit_COOKIE_EQ ++ n).drop (sizeof_lit lit_COOKIE_EQ - 1) = n := by
    simp [sizeof_lit, lit_COOKIE_EQ]
  unfold getJwt
  rw [if_neg (cookie_not_header_branch n), if_pos hc]
  dsimp only
  rw [hd]
  cases h.ngx_http_parse_multi_header_lines r.cookies n with
  | none => rfl
  | some v => rfl

/-- The cookie branch of `getJwt` is not taken for a cookie name of one
byte: line 394 asks for a length above `sizeof("COOKIE=")`, which is 8. -/
theorem getJwt_cookie_one_byte (h : Host) (r : ngx_http_request_t) (c : Char) :
    getJwt h r (lit_COOKIE_EQ ++ [c]) = (none, []) := by
  have hc : ¬ ((lit_COOKIE_EQ ++ [c]).length > sizeof_lit lit_COOKIE_EQ ∧
      ngx_strncmp (lit_COOKIE_EQ ++ [c]) lit_COOKIE_EQ (sizeof_lit lit_COOKIE_EQ - 1) = 0) := by
    rintro ⟨hl, _⟩
    simp [sizeof_lit, lit_COOKIE_EQ] at hl
  unfold getJwt
  rw [if_neg (cookie_not_header_branch [c]), if_neg hc]

/-- C4 at the failing input: validation type "COOKIE=a" and a request whose
Cookie header is `a=tok`.  The cookie lookup for the name `a` finds `tok`,
yet `getJwt` returns not-found without making the lookup. -/
theorem getJwt_cookie_one_byte_name :
    (sample_host jwt_alg_t.JWT_ALG_HS256 2000 1000).ngx_http_parse_multi_header_lines
      sample_request.cookies ['a'] = some ['t', 'o', 'k'] ∧
    getJwt (sample_host jwt_alg_t.JWT_ALG_HS256 2000 1000) sample_request
      (lit_COOKIE_EQ ++ ['a']) = (none, []) :=
  ⟨by decide, by decide⟩

/-- The status NGX_ERROR is not NGX_OK. -/
theorem NGX_ERROR_ne_NGX_OK : NGX_ERROR ≠ NGX_OK := by decide

/-- `loadAuthKey` leaves `auth_jwt_use_keyfile` and the path alone. -/
theorem loadAuthKey_keeps (fs : FileSystem) (conf : ngx_http_auth_jwt_loc_conf_t) :
    (loadAuthKey fs conf).2.auth_jwt_use_keyfile = conf.auth_jwt_use_keyfile ∧
    (loadAuthKey fs conf).2.auth_jwt_keyfile_path = conf.auth_jwt_keyfile_path := by
  unfold loadAuthKey
  split
  · exact ⟨rfl, rfl⟩
  · dsimp only
    split
    · exact ⟨rfl, rfl⟩
    · split
      · exact ⟨rfl, rfl⟩
      · exact ⟨rfl, rfl⟩

/-- `fread` delivers the whole file exactly when it is not cut short. -/
theorem fread_full_iff (f : FILE) :
    (fread f (ftell_end f)).length = ftell_end f ↔ f.content.length ≤ f.readable := by
  unfold fread ftell_end
  rw [List.length_take]
  omega

/-- When `loadAuthKey` returns NGX_OK the file opened, is not empty and was
read in full: `data` is its whole content and `len` is its size after the
`(int)` cast of line 310. -/
theorem loadAuthKey_ok (fs : FileSystem) (conf : ngx_http_auth_jwt_loc_conf_t)
    (hok : (loadAuthKey fs conf).1 = NGX_OK) :
    ∃ f, fs.fopen (c_str conf.auth_jwt_keyfile_path) = some f ∧ f.content ≠ [] ∧
      (loadAuthKey fs conf).2._auth_jwt_keyfile.data = f.content ∧
      (loadAuthKey fs conf).2._auth_jwt_keyfile.len = toSizeT (toInt32 f.content.length) := by
  unfold loadAuthKey at hok ⊢
  cases hopen : fs.fopen (c_str conf.auth_jwt_keyfile_path) with
  | none =>
    rw [hopen] at hok
    exact absurd hok NGX_ERROR_ne_NGX_OK
  | some f =>
    rw [hopen] at hok
    dsimp only at hok ⊢
    by_cases h0 : ftell_end f = 0
    · rw [if_pos h0] at hok
      exact absurd hok NGX_ERROR_ne_NGX_OK
    · by_cases h1 : (fread f (ftell_end f)).length = ftell_end f
      · rw [if_neg h0, if_pos h1]
        refine ⟨f, rfl, ?_, ?_, rfl⟩
        · intro hnil
          apply h0
          unfold ftell_end
          rw [hnil]
          rfl
        · have hle := (fread_full_iff f).mp h1
          show fread f (ftell_end f) = f.content
          unfold fread ftell_end
          apply List.take_of_length_le
          omega
      · rw [if_neg h0, if_neg h1] at hok
        exact absurd hok NGX_ERROR_ne_NGX_OK

/-- `loadAuthKey` returns NGX_ERROR when the file cannot be opened, has
length 0, or fewer bytes are read than its size. -/
theorem loadAuthKey_error (fs : FileSystem) (conf : ngx_http_auth_jwt_loc_conf_t)
    (hbad : fs.fopen (c_str conf.auth_jwt_keyfile_path) = none ∨
      ∃ f, fs.fopen (c_str conf.auth_jwt_keyfile_path) = some f ∧
        (f.content.length = 0 ∨ f.readable < f.content.length)) :
    (loadAuthKey fs conf).1 = NGX_ERROR := by
  unfold loadAuthKey
  rcases hbad with hnone | ⟨f, hopen, hf⟩
  · rw [hnone]
  · rw [hopen]
    dsimp only
    by_cases h0 : ftell_end f = 0
    · rw [if_pos h0]
    · rw [if_neg h0]
      have h1 : ¬ (fread f (ftell_end f)).length = ftell_end f := by
        rw [fread_full_iff]
        rcases hf with hz | hs
        · exact absurd hz h0
        · omega
      rw [if_neg h1]

/-- When the file opens, is not empty and is read in full, `loadAuthKey`
returns NGX_OK and stores the content with the `(int)` cast of its size. -/
theorem loadAuthKey_full_read (fs : FileSystem) (conf : ngx_http_auth_jwt_loc_conf_t)
    (f : FILE) (hopen : fs.fopen (c_str conf.auth_jwt_keyfile_path) = some f)
    (hne : f.content.length ≠ 0) (hread : f.content.length ≤ f.readable) :
    loadAuthKey fs conf =
      (NGX_OK, { conf with
        _auth_jwt_keyfile :=
          { data := f.content, len := toSizeT (toInt32 f.content.length) } }) := by
  have h1 : (fread f (ftell_end f)).length = ftell_end f := (fread_full_iff f).mpr hread
  have h2 : fread f (ftell_end f) = f.content := by
    unfold fread ftell_end
    apply List.take_of_length_le
    omega
  unfold loadAuthKey
  rw [hopen]
  dsimp only
  rw [if_neg (show ¬ ftell_end f = 0 from hne), if_pos h1, h2]
  rfl

/-- The body of `ngx_http_auth_jwt_merge_loc_conf` after the values are
merged (lines 344-358). -/
theorem merge_eq (fs : FileSystem) (prev conf : loc_conf_directives) :
    ngx_http_auth_jwt_merge_loc_conf fs prev conf =
      if (merge_values prev conf).auth_jwt_use_keyfile = 1 then
        if ngx_strcmp (merge_values prev conf).auth_jwt_keyfile_path [] ≠ 0 then
          if (loadAuthKey fs (merge_values prev conf)).1 ≠ NGX_OK then
            (conf_rc.NGX_CONF_ERROR, (loadAuthKey fs (merge_values prev conf)).2)
          else
            (conf_rc.NGX_CONF_OK, (loadAuthKey fs (merge_values prev conf)).2)
        else
          (conf_rc.NGX_CONF_ERROR, merge_values prev conf)
      else
        (conf_rc.NGX_CONF_OK, merge_values prev conf) := rfl

/-- Below 2^31 the `(int)` cast of line 310, stored into the `size_t` field
`len`, is the size itself. -/
theorem toSizeT_toInt32_of_lt (n : Nat) (hn : n < 2147483648) : toSizeT (toInt32 n) = n := by
  rw [toInt32_of_lt n hn]
  unfold toSizeT
  omega

/-- The value NGX_CONF_ERROR is not NGX_CONF_OK. -/
theorem NGX_CONF_ERROR_ne_OK : conf_rc.NGX_CONF_ERROR ≠ conf_rc.NGX_CONF_OK := by decide

/-- What holds of the key file after a successful merge with
`auth_jwt_use_keyfile` 1: the path is not empty, the file at that path opened
and is not empty, the stored `data` is its full content; the stored `len` is
the `(int)` cast of its size, which is the size itself (and not 0) for a file
of less than 2^31 bytes. -/
theorem merge_keyfile_loaded (fs : FileSystem) (prev conf : loc_conf_directives)
    (hok : (ngx_http_auth_jwt_merge_loc_conf fs prev conf).1 = conf_rc.NGX_CONF_OK)
    (huse : (ngx_http_auth_jwt_merge_loc_conf fs prev conf).2.auth_jwt_use_keyfile = 1) :
    (ngx_http_auth_jwt_merge_loc_conf fs prev conf).2.auth_jwt_keyfile_path ≠ [] ∧
    ∃ f, fs.fopen (c_str (ngx_http_auth_jwt_merge_loc_conf fs prev conf).2.auth_jwt_keyfile_path)
        = some f ∧ f.content ≠ [] ∧
      (ngx_http_auth_jwt_merge_loc_conf fs prev conf).2._auth_jwt_keyfile.data = f.content ∧
      (ngx_http_auth_jwt_merge_loc_conf fs prev conf).2._auth_jwt_keyfile.len
        = toSizeT (toInt32 f.content.length) ∧
      (f.content.length < 2147483648 →
        (ngx_http_auth_jwt_merge_loc_conf fs prev conf).2._auth_jwt_keyfile.len
          = f.content.length ∧
        (ngx_http_auth_jwt_merge_loc_conf fs prev conf).2._auth_jwt_keyfile.len ≠ 0) := by
  rw [merge_eq] at hok huse ⊢
  by_cases hu : (merge_values prev conf).auth_jwt_use_keyfile = 1
  · rw [if_pos hu] at hok huse ⊢
    by_cases hp : ngx_strcmp (merge_values prev conf).auth_jwt_keyfile_path [] ≠ 0
    · rw [if_pos hp] at hok huse ⊢
      by_cases hl : (loadAuthKey fs (merge_values prev conf)).1 ≠ NGX_OK
      · rw [if_pos hl] at hok
        exact absurd hok NGX_CONF_ERROR_ne_OK
      · rw [if_neg hl]
        have hl2 : (loadAuthKey fs (merge_values prev conf)).1 = NGX_OK := not_not.mp hl
        obtain ⟨f, hopen, hne, hdata, hlen⟩ := loadAuthKey_ok fs (merge_values prev conf) hl2
        have hkeep := (loadAuthKey_keeps fs (merge_values prev conf)).2
        dsimp only
        rw [hkeep]
        refine ⟨?_, f, hopen, hne, hdata, hlen, ?_⟩
        · intro hnil
          apply hp
          rw [hnil]
          rfl
        · intro hsmall
          rw [hlen, toSizeT_toInt32_of_lt _ hsmall]
          refine ⟨rfl, ?_⟩
          intro h0
          exact hne (List.length_eq_zero.mp h0)
    · rw [if_neg hp] at hok
      exact absurd hok NGX_CONF_ERROR_ne_OK
  · rw [if_neg hu] at huse
    exact absurd huse hu

/-- Merging returns NGX_CONF_ERROR when the merged `auth_jwt_use_keyfile` is
1 and the path is empty, the file cannot be opened, the file has length 0,
or fewer bytes are read than the file's size. -/
theorem merge_keyfile_error (fs : FileSystem) (prev conf : loc_conf_directives)
    (huse : (merge_values prev conf).auth_jwt_use_keyfile = 1)
    (hbad : (merge_values prev conf).auth_jwt_keyfile_path = [] ∨
      fs.fopen (c_str (merge_values prev conf).auth_jwt_keyfile_path) = none ∨
      ∃ f, fs.fopen (c_str (merge_values prev conf).auth_jwt_keyfile_path) = some f ∧
        (f.content.length = 0 ∨ f.readable < f.content.length)) :
    (ngx_http_auth_jwt_merge_loc_conf fs prev conf).1 = conf_rc.NGX_CONF_ERROR := by
  rw [merge_eq, if_pos huse]
  by_cases hp : ngx_strcmp (merge_values prev conf).auth_jwt_keyfile_path [] ≠ 0
  · rw [if_pos hp]
    have hload : (loadAuthKey fs (merge_values prev conf)).1 = NGX_ERROR := by
      apply loadAuthKey_error
      rcases hbad with hnil | hnone | hf
      · rw [hnil] at hp
        exact absurd rfl hp
      · exact Or.inl hnone
      · exact Or.inr hf
    have hl : (loadAuthKey fs (merge_values prev conf)).1 ≠ NGX_OK := by
      rw [hload]
      exact NGX_ERROR_ne_NGX_OK
    rw [if_pos hl]
  · rw [if_neg hp]

/-- The size of `four_GiB_file` is 2^32. -/
theorem four_GiB_file_length : four_GiB_file.content.length = 4294967296 :=
  List.length_replicate 4294967296 'k'

/-- C9 at the failing input: the directives `auth_jwt_use_keyfile on` and
`auth_jwt_keyfile_path k`, and a key file of exactly 2^32 bytes that is read
in full.  Merging returns NGX_CONF_OK with `auth_jwt_use_keyfile` 1, and the
stored `_auth_jwt_keyfile.len` is 0: the `(int)` cast of line 310 turns the
size 4294967296 into 0, so the stored key is the empty string. -/
theorem merge_four_GiB_keyfile :
    four_GiB_file.content.length = 4294967296 ∧
    four_GiB_file.content.length ≤ four_GiB_file.readable ∧
    (ngx_http_auth_jwt_merge_loc_conf four_GiB_fs ngx_http_auth_jwt_create_loc_conf
      keyfile_directives).1 = conf_rc.NGX_CONF_OK ∧
    (ngx_http_auth_jwt_merge_loc_conf four_GiB_fs ngx_http_auth_jwt_create_loc_conf
      keyfile_directives).2.auth_jwt_use_keyfile = 1 ∧
    (ngx_http_auth_jwt_merge_loc_conf four_GiB_fs ngx_http_auth_jwt_create_loc_conf
      keyfile_directives).2._auth_jwt_keyfile.len = 0 := by
  have hlen := four_GiB_file_length
  have hread : four_GiB_file.content.length ≤ four_GiB_file.readable := by
    rw [hlen]
    exact Nat.le_refl 4294967296
  have hne : four_GiB_file.content.length ≠ 0 := by
    rw [hlen]
    decide
  have hu : (merge_values ngx_http_auth_jwt_create_loc_conf keyfile_directives).auth_jwt_use_keyfile
      = 1 := by decide
  have hp : ngx_strcmp
      (merge_values ngx_http_auth_jwt_create_loc_conf keyfile_directives).auth_jwt_keyfile_path []
      ≠ 0 := by decide
  have hload := loadAuthKey_full_read four_GiB_fs
    (merge_values ngx_http_auth_jwt_create_loc_conf keyfile_directives) four_GiB_file rfl hne hread
  have hl : ¬ (loadAuthKey four_GiB_fs
      (merge_values ngx_http_auth_jwt_create_loc_conf keyfile_directives)).1 ≠ NGX_OK := by
    rw [hload]
    exact not_not.mpr rfl
  have hcast : toSizeT (toInt32 4294967296) = 0 := by decide
  refine ⟨hlen, hread, ?_, ?_, ?_⟩
  · rw [merge_eq, if_pos hu, if_pos hp, if_neg hl]
  · rw [merge_eq, if_pos hu, if_pos hp, if_neg hl, hload]
    exact hu
  · rw [merge_eq, if_pos hu, if_pos hp, if_neg hl, hload]
    dsimp only
    rw [hlen]
    exact hcast

/-- C6 at the failing input: the directives `auth_jwt_enabled on`,
`auth_jwt_algorithm RS256`, `auth_jwt_use_keyfile on`, `auth_jwt_keyfile_path
k`, and a key file of exactly 2^32 bytes that is read in full.  Merging
succeeds and leaves the policy `four_GiB_conf`; on it the key block resolves
the 2^32 loaded key file bytes with `keylen` 0, and the handler's one
`jwt_decode` call is handed those bytes with the length 0, not their length
4294967296. -/
theorem handler_key_four_GiB_keyfile :
    ngx_http_auth_jwt_merge_loc_conf four_GiB_fs ngx_http_auth_jwt_create_loc_conf
      rsa_keyfile_directives = (conf_rc.NGX_CONF_OK, four_GiB_conf) ∧
    four_GiB_conf.auth_jwt_algorithm = lit_RS256 ∧
    four_GiB_conf.auth_jwt_use_keyfile = 1 ∧
    four_GiB_conf._auth_jwt_keyfile.data = four_GiB_file.content ∧
    four_GiB_file.content.length = 4294967296 ∧
    handler_key (sample_host jwt_alg_t.JWT_ALG_RS256 2000 1000) four_GiB_conf =
      (key_result.key four_GiB_file.content 0, []) ∧
    (ngx_http_auth_jwt_handler (sample_host jwt_alg_t.JWT_ALG_RS256 2000 1000) four_GiB_conf
      sample_request).2.filter Call.is_jwt_decode =
        [Call.jwt_decode ['a', 'b', 'c'] four_GiB_file.content 0] := by
  have hlen := four_GiB_file_length
  have hread : four_GiB_file.content.length ≤ four_GiB_file.readable := by
    rw [hlen]
    exact Nat.le_refl 4294967296
  have hne : four_GiB_file.content.length ≠ 0 := by
    rw [hlen]
    decide
  have hu : (merge_values ngx_http_auth_jwt_create_loc_conf
      rsa_keyfile_directives).auth_jwt_use_keyfile = 1 := by decide
  have hp : ngx_strcmp (merge_values ngx_http_auth_jwt_create_loc_conf
      rsa_keyfile_directives).auth_jwt_keyfile_path [] ≠ 0 := by decide
  have hcast : toSizeT (toInt32 4294967296) = 0 := by decide
  have hload : loadAuthKey four_GiB_fs
      (merge_values ngx_http_auth_jwt_create_loc_conf rsa_keyfile_directives) =
      (NGX_OK, four_GiB_conf) := by
    rw [loadAuthKey_full_read four_GiB_fs
      (merge_values ngx_http_auth_jwt_create_loc_conf rsa_keyfile_directives) four_GiB_file rfl
      hne hread, hlen, hcast]
    rfl
  have hl : ¬ (loadAuthKey four_GiB_fs
      (merge_values ngx_http_auth_jwt_create_loc_conf rsa_keyfile_directives)).1 ≠ NGX_OK := by
    rw [hload]
    exact not_not.mpr rfl
  have hlabel5 : four_GiB_conf.auth_jwt_algorithm.length = 5 := rfl
  have hrs : four_GiB_conf.auth_jwt_algorithm.take 2 = lit_RS := rfl
  have huse : four_GiB_conf.auth_jwt_use_keyfile = 1 := rfl
  have hen : four_GiB_conf.auth_jwt_enabled ≠ 0 := by
    show (1 : Int) ≠ 0
    decide
  have hkey : handler_key (sample_host jwt_alg_t.JWT_ALG_RS256 2000 1000) four_GiB_conf =
      (key_result.key four_GiB_file.content 0, []) :=
    ((handler_key_material (sample_host jwt_alg_t.JWT_ALG_RS256 2000 1000)
      four_GiB_conf).1 hlabel5 hrs).1 huse
  have hloc : getJwt (sample_host jwt_alg_t.JWT_ALG_RS256 2000 1000) sample_request
      four_GiB_conf.auth_jwt_validation_type =
      (some ['a', 'b', 'c'], [Call.search_headers_in authorizationHeaderName]) := by
    show getJwt (sample_host jwt_alg_t.JWT_ALG_RS256 2000 1000) sample_request [] = _
    decide
  refine ⟨?_, rfl, huse, rfl, hlen, hkey, ?_⟩
  · rw [merge_eq, if_pos hu, if_pos hp, if_neg hl, hload]
  · exact (handler_key_material (sample_host jwt_alg_t.JWT_ALG_RS256 2000 1000)
      four_GiB_conf).2.2.1 sample_request ['a', 'b', 'c'] four_GiB_file.content 0
      [Call.search_headers_in authorizationHeaderName] [] hen (by decide) hloc hkey

end NgxAuthJwt
